import Mathlib

/-!
Verification of the core logic of the Heart Chaser game
(src/final pacman/src/main.c) against its natural-language specification.

The C source is shallowly embedded: each global-mutating C function becomes
a pure Lean function on an explicit state record.  Machine integers are
modelled as Nat with explicit reduction modulo 2^16 (uint16_t) or 2^32
(uint32_t) exactly where the C code can wrap.  Display and audio calls
(putImage, fillRectangle, playNote, eputs, ...) are external collaborators
with no effect on the game state and are elided; the tone requested by the
tick handler is returned as an explicit output.  The free-running counter
milliseconds is read by the main loop as a snapshot; it is carried as a
state field and left unchanged inside one loop iteration.
-/

/-- uint32 subtraction a - b as used for elapsed-time checks
(milliseconds - heart_move_delay, milliseconds - pumpkin_move_delay);
faithful to C wraparound for a, b < 2^32. -/
def usub32 (a b : Nat) : Nat := ((a + 4294967296) - b) % 4294967296

/-- Reduction of a signed intermediate value to uint16_t, as happens when a
C expression mixing int and uint16_t is stored back into a uint16_t. -/
def wrap16 (i : Int) : Nat := (i % 65536).toNat

/-- uint16 addition. -/
def add16 (a b : Nat) : Nat := (a + b) % 65536

/-- uint16 subtraction, faithful for b ≤ 65536. -/
def sub16 (a b : Nat) : Nat := ((a + 65536) - b) % 65536

/-- Embedding of isInside (main.c:1315).  x2 = x1 + w and y2 = y1 + h are
computed in uint16_t and therefore wrap modulo 2^16.  The nested-if shape
mirrors the source (rvalue is 1 only when both constraints hold). -/
def isInside (x1 y1 w h px py : Nat) : Bool :=
  let x2 := (x1 + w) % 65536
  let y2 := (y1 + h) % 65536
  if x1 ≤ px ∧ px ≤ x2 then
    if y1 ≤ py ∧ py ≤ y2 then true else false
  else false

/-- The containment predicate exactly as the specification words it
(closed-interval containment with mathematical addition); kept separate
from isInside so the two can be compared. -/
def contains_spec (x1 y1 w h px py : Nat) : Bool :=
  decide ((x1 ≤ px ∧ px ≤ x1 + w) ∧ (y1 ≤ py ∧ py ≤ y1 + h))

/-- The level-1 maze (main.c:425), declared uint8_t maze[20][16] with 17
initializer rows; C zero-initializes the remaining three rows. -/
def maze : List (List Nat) :=
  [[1,1,1,1,1,1,1,1,1,1,1,1,1,1,1,1],
   [1,0,0,0,0,0,1,0,0,0,0,0,0,0,0,1],
   [1,0,1,1,1,0,1,0,1,1,1,1,1,1,0,1],
   [1,0,0,0,1,0,0,0,0,0,1,0,0,0,0,1],
   [1,1,1,0,1,1,1,1,1,0,1,0,1,1,0,1],
   [1,0,0,0,0,0,0,0,1,0,0,0,1,0,0,1],
   [1,0,1,1,1,1,1,0,1,1,1,1,1,0,1,1],
   [1,0,0,0,0,0,1,0,0,0,0,0,0,0,0,1],
   [1,1,1,1,1,0,1,1,1,1,1,0,1,1,0,1],
   [1,0,0,0,0,0,1,0,0,0,0,0,1,0,0,1],
   [1,0,1,1,1,1,1,0,1,1,1,1,1,0,1,1],
   [1,0,0,0,0,0,0,0,1,0,0,0,0,0,0,1],
   [1,0,1,1,1,1,1,1,1,0,1,1,1,1,0,1],
   [1,0,0,0,0,0,0,0,0,0,0,0,0,1,0,1],
   [1,0,1,1,1,1,1,1,1,1,1,1,0,1,0,1],
   [1,0,0,0,0,0,0,0,0,0,0,0,0,0,0,1],
   [1,1,1,1,1,1,1,1,1,1,1,1,1,1,1,1],
   [0,0,0,0,0,0,0,0,0,0,0,0,0,0,0,0],
   [0,0,0,0,0,0,0,0,0,0,0,0,0,0,0,0],
   [0,0,0,0,0,0,0,0,0,0,0,0,0,0,0,0]]

/-- Tile lookup maze[gridY][gridX]. -/
def mazeAt (row col : Nat) : Nat := (maze.getD row []).getD col 0

/-- Embedding of isWallCollision (main.c:499).  WALL_SIZE = 8.  The source
also tests gridX >= 0 and gridY >= 0, which is vacuous here because the
pixel coordinates are unsigned. -/
def isWallCollision (x y : Nat) : Bool :=
  let gridX := x / 8
  let gridY := y / 8
  if gridX < 16 ∧ gridY < 20 then mazeAt gridY gridX == 1 else true

/-- One axis of the heart random walk (main.c:1016-1021): the direction is
rand() % 3 - 1 ∈ {-1,0,1} and the uint16_t coordinate moves by 3 scaled by
that direction, wrapping modulo 2^16. -/
def driftMove (c r : Nat) : Nat :=
  wrap16 ((c : Int) + 3 * (((r % 3 : Nat) : Int) - 1))

/-- The sequential boundary checks applied after a heart moves
(main.c:1024-1027): if (c <= 0) c = 0; if (c >= bound) c = bound. -/
def driftClamp (c bound : Nat) : Nat :=
  let c1 := if c ≤ 0 then 0 else c
  if bound ≤ c1 then bound else c1

/-- One drift step for one heart, guarded by its eaten flag exactly as in
the 400 ms block (if (!heartN_eaten) { move and clamp }); the x bound is
115 and the y bound is 144. -/
def heartStep (eaten x y rx ry : Nat) : Nat × Nat :=
  if eaten = 0 then
    (driftClamp (driftMove x rx) 115, driftClamp (driftMove y ry) 144)
  else (x, y)

/-- Iterated drift steps of a single heart, one (rand x, rand y) pair per
step. -/
def heartRun (eaten x y : Nat) (rs : List (Nat × Nat)) : Nat × Nat :=
  rs.foldl (fun p r => heartStep eaten p.1 p.2 r.1 r.2) (x, y)

/-- Enemy record (main.c:212). -/
structure Enemy where
  x : Nat
  y : Nat
  active : Bool
  speed : Nat
deriving DecidableEq, Repr

/-- One coordinate of the enemy update (main.c:336-345): the two greedy
ifs toward the target (the second one reads the value the first one just
wrote) followed by the screen-boundary ternary; uint16_t arithmetic
throughout. -/
def axisStep (c t speed bound : Nat) : Nat :=
  let c0 := if c < t then add16 c speed else c
  let c1 := if t < c0 then sub16 c0 speed else c0
  if c1 ≤ 0 then 0 else if bound ≤ c1 then bound else c1

/-- Position update of one active enemy inside moveEnemies
(main.c:336-348).  In the source the x statements and the y statements
are interleaved but never read the other axis, so they are grouped per
axis here; the x bound is 115 and the y bound is 144. -/
def moveEnemyStep (e : Enemy) (speed px py : Nat) : Enemy :=
  { e with x := axisStep e.x px speed 115, y := axisStep e.y py speed 144 }

/-- State owned by the SysTick interrupt tune sequencer (main.c:83-87 and
the statics in SysTick_Handler): active models background_tune_notes != 0,
timer is current_note_timer, repeatFlag is background_repeat_tune. -/
structure TuneState where
  active : Bool
  tnotes : List Nat
  ttimes : List Nat
  count : Nat
  index : Nat
  timer : Nat
  repeatFlag : Nat
deriving DecidableEq, Repr

/-- One tick of the tune part of SysTick_Handler (main.c:1230-1263).
Returns the updated state and the tone requested via playNote on this
tick, if any. -/
def tuneTick (s : TuneState) : TuneState × Option Nat :=
  if s.active then
    let su :=
      if s.timer = 0 then
        let idx := s.index + 1
        if s.count ≤ idx then
          if s.repeatFlag = 0 then
            ({ s with active := false, index := idx }, (none : Option Nat))
          else
            ({ s with index := 0 }, none)
        else
          ({ s with index := idx, timer := s.ttimes.getD idx 0 },
           some (s.tnotes.getD idx 0))
      else (s, none)
    let s1 := su.1
    (if s1.timer ≠ 0 then { s1 with timer := s1.timer - 1 } else s1, su.2)
  else (s, none)

/-- The milliseconds++ performed by SysTick_Handler (main.c:1227);
milliseconds is uint32_t. -/
def msTick (m : Nat) : Nat := (m + 1) % 4294967296

/-- end_time = dly + milliseconds computed in delay (main.c:1295), a
uint32 addition. -/
def delayEnd (d t1 : Nat) : Nat := (d + t1) % 4294967296

/-- The loop condition of delay (main.c:1296) seen at a counter value m:
the wait is over exactly when milliseconds equals end_time. -/
def delayDone (t1 d m : Nat) : Bool := m == delayEnd d t1

/-- The global game state of main.c together with the loop-carried locals
of main (player position px, py).  Eaten flags are ints holding 0 or 1 in
the source and are summed arithmetically, so they stay Nat here. -/
structure GameState where
  in_menu : Bool
  selected_option : Nat
  game_over : Bool
  game_won : Bool
  show_game_over_menu : Nat
  game_over_selection : Nat
  current_level : Nat
  hearts_collected : Nat
  heart1_x : Nat
  heart1_y : Nat
  heart2_x : Nat
  heart2_y : Nat
  heart3_x : Nat
  heart3_y : Nat
  heart4_x : Nat
  heart4_y : Nat
  heart1_eaten : Nat
  heart2_eaten : Nat
  heart3_eaten : Nat
  heart4_eaten : Nat
  heart_move_delay : Nat
  pumpkin_move_delay : Nat
  milliseconds : Nat
  enemies : List Enemy
  px : Nat
  py : Nat
deriving DecidableEq, Repr

/-- One sample of the (active-low) buttons plus the serial override; true
means pressed / serial character r received. -/
structure Inputs where
  up : Bool
  down : Bool
  left : Bool
  right : Bool
  serialR : Bool
deriving DecidableEq, Repr

/-- The rand() values drawn by one pass of the 400 ms heart block, in call
order (x then y for hearts 1, 2, 3, 4). -/
structure Rands where
  r1x : Nat
  r1y : Nat
  r2x : Nat
  r2y : Nat
  r3x : Nat
  r3y : Nat
  r4x : Nat
  r4y : Nat
deriving DecidableEq, Repr

/-- Embedding of initEnemies (main.c:247): level 1 activates enemy 0 at
(10,10); otherwise enemies 0, 1, 2 are set and any further entries are
left untouched.  Drawing is display-only. -/
def initEnemies (s : GameState) : GameState :=
  if s.current_level = 1 then
    { s with enemies := s.enemies.set 0 ⟨10, 10, true, 1⟩ }
  else
    { s with enemies :=
        ((s.enemies.set 0 ⟨10, 10, true, 1⟩).set 1
           ⟨100, 10, true, 1⟩).set 2 ⟨60, 140, true, 1⟩ }

/-- Embedding of checkEnemyCollision (main.c:359): scan all enemy slots
and report whether some active enemy box contains the player point. -/
def checkEnemyCollision (s : GameState) (px py : Nat) : Bool :=
  s.enemies.any (fun e => e.active && isInside e.x e.y 12 16 px py)

/-- required_hearts in checkWinCondition (main.c:379). -/
def requiredHearts (s : GameState) : Nat :=
  if s.current_level = 1 then 2 else 4

/-- The recomputation of hearts_collected from the eaten flags in
checkWinCondition (main.c:380-383). -/
def collectedHearts (s : GameState) : Nat :=
  s.heart1_eaten + s.heart2_eaten +
    (if s.current_level = 2 then s.heart3_eaten + s.heart4_eaten else 0)

/-- Embedding of checkWinCondition (main.c:377).  x and y are the C value
parameters; the returned pair carries their values at function return so
that the dead store x = 50; y = 50 of the level-transition branch is
visible, while the first component is the state the caller actually
observes.  Screen drawing and the 2000 ms message delay are elided. -/
def checkWinCondition (s : GameState) (x y : Nat) : GameState × Nat × Nat :=
  let hc := collectedHearts s
  let s := { s with hearts_collected := hc }
  if hc = requiredHearts s ∧ s.game_won = false then
    if s.current_level = 1 then
      let s := { s with current_level := 2, heart1_eaten := 0,
                        heart2_eaten := 0, heart3_eaten := 0,
                        heart4_eaten := 0 }
      (initEnemies s, 50, 50)
    else
      ({ s with game_won := true }, x, y)
  else (s, x, y)

/-- Embedding of moveEnemies (main.c:308): skip while game_won, gate on
the per-level delay (30 ms on level 1, 65 ms otherwise) with uint32
elapsed-time subtraction, then update every active enemy with the level
speed rule (level 2 halves effective speed on odd milliseconds). -/
def moveEnemies (s : GameState) (px py : Nat) : GameState :=
  if s.game_won then s
  else
    let delay_time : Nat := if s.current_level = 1 then 30 else 65
    if usub32 s.milliseconds s.pumpkin_move_delay < delay_time then s
    else
      let s := { s with pumpkin_move_delay := s.milliseconds }
      { s with enemies := s.enemies.map (fun e =>
          if e.active then
            let current_speed :=
              if s.current_level = 2 then
                (if s.milliseconds % 2 = 0 then 1 else 0)
              else e.speed
            moveEnemyStep e current_speed px py
          else e) }

/-- The menu branch of the main loop (main.c:839-906).  Informational
screens (Controls, Credits) and all drawing only touch the display; the
state effects are option navigation and the Start Game reset. -/
def menuStep (s : GameState) (inp : Inputs) : GameState :=
  let s := if inp.down then
      { s with selected_option := (s.selected_option + 1) % 3 } else s
  let s := if inp.up then
      { s with selected_option := (s.selected_option + 3 - 1) % 3 } else s
  if inp.right then
    if s.selected_option = 0 then
      let s := { s with in_menu := false, game_over := false,
                        game_won := false, heart1_eaten := 0,
                        heart2_eaten := 0, px := 50, py := 50,
                        heart1_x := 40, heart1_y := 80,
                        heart2_x := 60, heart2_y := 90 }
      initEnemies s
    else s
  else s

/-- The player-movement section of the loop (main.c:918-951): each axis
moves by one within the screen bounds; returns (state, hmoved, vmoved). -/
def playerMove (s : GameState) (inp : Inputs) : GameState × Bool × Bool :=
  if s.game_over = false ∧ s.game_won = false then
    let x := s.px
    let y := s.py
    let xh := if (inp.right ∨ inp.serialR) ∧ x < 115 then (x + 1, true)
              else (x, false)
    let xh2 := if inp.left ∧ xh.1 > 2 then (xh.1 - 1, true) else (xh.1, false)
    let yv := if inp.down ∧ y < 144 then (y + 1, true) else (y, false)
    let yv2 := if inp.up ∧ yv.1 > 1 then (yv.1 - 1, true) else (yv.1, false)
    ({ s with px := xh2.1, py := yv2.1 }, xh.2 || xh2.2, yv.2 || yv2.2)
  else (s, false, false)

/-- The level-1 heart pickup checks run after a player move
(main.c:969-999); each pickup marks the heart eaten and calls
checkWinCondition, whose returned locals are discarded. -/
def heartCollect (s : GameState) : GameState :=
  let s := if s.heart1_eaten = 0 ∧ isInside s.heart1_x s.heart1_y 12 16 s.px s.py then
      (checkWinCondition { s with heart1_eaten := 1 } s.px s.py).1
    else s
  if s.heart2_eaten = 0 ∧ isInside s.heart2_x s.heart2_y 12 16 s.px s.py then
    (checkWinCondition { s with heart2_eaten := 1 } s.px s.py).1
  else s

/-- The drift part of the 400 ms block (main.c:1011-1087): hearts 1 and 2
always, hearts 3 and 4 only on level 2, each guarded by its eaten flag
(the guard lives inside heartStep). -/
def heartDriftPhase (s : GameState) (r : Rands) : GameState :=
  let p1 := heartStep s.heart1_eaten s.heart1_x s.heart1_y r.r1x r.r1y
  let s := { s with heart1_x := p1.1, heart1_y := p1.2 }
  let p2 := heartStep s.heart2_eaten s.heart2_x s.heart2_y r.r2x r.r2y
  let s := { s with heart2_x := p2.1, heart2_y := p2.2 }
  if s.current_level = 2 then
    let p3 := heartStep s.heart3_eaten s.heart3_x s.heart3_y r.r3x r.r3y
    let s := { s with heart3_x := p3.1, heart3_y := p3.2 }
    let p4 := heartStep s.heart4_eaten s.heart4_x s.heart4_y r.r4x r.r4y
    { s with heart4_x := p4.1, heart4_y := p4.2 }
  else s

/-- The whole 400 ms block (main.c:1008-1119): guarded by the heart-move
timer and game_over; drifts the hearts, then performs the enemy-collision
check (which deactivates every enemy and opens the result submenu on a
hit), then stores milliseconds into heart_move_delay. -/
def heartMoveBlock (s : GameState) (r : Rands) : GameState :=
  if 400 ≤ usub32 s.milliseconds s.heart_move_delay ∧ s.game_over = false then
    let s1 := heartDriftPhase s r
    let s2 :=
      if s1.game_won = false ∧ checkEnemyCollision s1 s1.px s1.py then
        { s1 with game_over := true,
                  enemies := s1.enemies.map (fun e =>
                    if e.active then { e with active := false } else e),
                  show_game_over_menu := 1, game_over_selection := 0 }
      else s1
    { s2 with heart_move_delay := s2.milliseconds }
  else s

/-- The level-2 heart pickup checks (main.c:1123-1152), which unlike the
level-1 ones run regardless of whether the player moved. -/
def level2Collect (s : GameState) : GameState :=
  let s := if s.heart3_eaten = 0 ∧ isInside s.heart3_x s.heart3_y 12 16 s.px s.py then
      (checkWinCondition { s with heart3_eaten := 1 } s.px s.py).1
    else s
  if s.heart4_eaten = 0 ∧ isInside s.heart4_x s.heart4_y 12 16 s.px s.py then
    (checkWinCondition { s with heart4_eaten := 1 } s.px s.py).1
  else s

/-- The GameOver / Win submenu navigation (main.c:1157-1209): up or down
toggles the selection; confirm either performs the full Play Again reset
to level 1 or returns to the main menu. -/
def gameOverNav (s : GameState) (inp : Inputs) : GameState :=
  if s.game_over ∨ s.game_won then
    let s := if inp.down then
        { s with game_over_selection :=
            if s.game_over_selection = 0 then 1 else 0 } else s
    let s := if inp.up then
        { s with game_over_selection :=
            if s.game_over_selection = 0 then 1 else 0 } else s
    if inp.right then
      if s.game_over_selection = 0 then
        let s := { s with current_level := 1, game_over := false,
                          game_won := false, heart1_eaten := 0,
                          heart2_eaten := 0, heart3_eaten := 0,
                          heart4_eaten := 0, show_game_over_menu := 0,
                          px := 50, py := 50, heart1_x := 40,
                          heart1_y := 80, heart2_x := 60, heart2_y := 90 }
        initEnemies s
      else
        { s with in_menu := true, show_game_over_menu := 0,
                 current_level := 1 }
    else s
  else s

/-- One iteration of the main game loop (main.c:834-1212) as a state
transformer over one input sample and the rand() draws of the heart
block; in the menu the iteration is the menu branch alone (the source
continue). -/
def loopBody (s : GameState) (inp : Inputs) (r : Rands) : GameState :=
  if s.in_menu then menuStep s inp
  else
    let s := (checkWinCondition s s.px s.py).1
    let s := if s.game_won = false then moveEnemies s s.px s.py else s
    let pm := playerMove s inp
    let s := pm.1
    let s := if pm.2.1 || pm.2.2 then heartCollect s else s
    let s := heartMoveBlock s r
    let s := if s.current_level = 2 then level2Collect s else s
    gameOverNav s inp

/-- No button pressed, no serial input. -/
def inputsNone : Inputs := ⟨false, false, false, false, false⟩

/-- A fixed draw of rand() values. -/
def rands0 : Rands := ⟨0, 0, 0, 0, 0, 0, 0, 0⟩

/-- A reachable mid-game state: level 1 just after start, hearts at their
initial places, the single level-1 enemy active, player at the start
position. -/
def gs0 : GameState where
  in_menu := false
  selected_option := 0
  game_over := false
  game_won := false
  show_game_over_menu := 0
  game_over_selection := 0
  current_level := 1
  hearts_collected := 0
  heart1_x := 40
  heart1_y := 80
  heart2_x := 60
  heart2_y := 90
  heart3_x := 80
  heart3_y := 70
  heart4_x := 30
  heart4_y := 100
  heart1_eaten := 0
  heart2_eaten := 0
  heart3_eaten := 0
  heart4_eaten := 0
  heart_move_delay := 100
  pumpkin_move_delay := 0
  milliseconds := 100
  enemies := [⟨10, 10, true, 1⟩, ⟨0, 0, false, 0⟩, ⟨0, 0, false, 0⟩,
              ⟨0, 0, false, 0⟩, ⟨0, 0, false, 0⟩, ⟨0, 0, false, 0⟩]
  px := 50
  py := 50

/-- Level 1 with both hearts already collected, game not yet won, the
player away from the start coordinates at (70,80); both loop timers
freshly reset so no enemy or heart movement fires this iteration. -/
def c1State : GameState := { gs0 with
                             heart1_eaten := 1, heart2_eaten := 1,
                             heart_move_delay := 1000,
                             pumpkin_move_delay := 1000,
                             milliseconds := 1000, px := 70, py := 80 }

/-- Playing state in which the active enemy box (45,45)-(57,61) contains
the player at (50,50) but the 400 ms heart timer has not elapsed
(heart_move_delay = milliseconds). -/
def c2State : GameState := { gs0 with
                             enemies := [⟨45, 45, true, 1⟩, ⟨0, 0, false, 0⟩,
                                         ⟨0, 0, false, 0⟩, ⟨0, 0, false, 0⟩,
                                         ⟨0, 0, false, 0⟩, ⟨0, 0, false, 0⟩],
                             heart_move_delay := 1000,
                             pumpkin_move_delay := 1000,
                             milliseconds := 1000 }

/-- Same overlap situation as c2State but with the 400 ms timer elapsed. -/
def c2wState : GameState := { c2State with heart_move_delay := 0 }

/-- An active two-note tune with repeat on, sitting at the last note
(index 1) whose remaining ticks have just reached 0. -/
def c3State : TuneState := ⟨true, [100, 200], [5, 7], 2, 1, 0, 1⟩

/-- Level 1, game not won, both hearts collected. -/
def c4State : GameState := { gs0 with heart1_eaten := 1, heart2_eaten := 1 }

/-- Claim C5 fails as stated: the corner x2 = x1 + w is computed in
uint16_t and wraps, so for x1 = 65535, w = 2 the point px = 65535 with
x1 ≤ px ≤ x1 + w is reported outside while the spec predicate holds. -/
theorem c5_overflow_counterexample :
    isInside 65535 0 2 16 65535 0 = false ∧
    contains_spec 65535 0 2 16 65535 0 = true := by decide

/-- Claim C5 (amended): whenever the corner sums x1 + w and y1 + h do not
overflow 16 bits, isInside decides exactly the closed-interval containment
x1 ≤ px ≤ x1 + w and y1 ≤ py ≤ y1 + h; the particular instances for the
rectangle at (10,10) sized 12x16 hold as claimed. -/
theorem c5_isInside_closed_interval :
    (∀ x1 y1 w h px py : Nat, x1 + w < 65536 → y1 + h < 65536 →
        (isInside x1 y1 w h px py = true ↔
          x1 ≤ px ∧ px ≤ x1 + w ∧ y1 ≤ py ∧ py ≤ y1 + h)) ∧
    isInside 10 10 12 16 10 10 = true ∧
    isInside 10 10 12 16 22 26 = true ∧
    isInside 10 10 12 16 23 10 = false := by
  refine ⟨?_, by decide, by decide, by decide⟩
  intro x1 y1 w h px py hx hy
  simp only [isInside, Nat.mod_eq_of_lt hx, Nat.mod_eq_of_lt hy]
  split_ifs <;> simp_all

/-- Claim C5 witness: the amended equivalence evaluated at the rectangle
(10,10) sized 12x16 and the interior point (11,12). -/
theorem c5_isInside_witness :
    isInside 10 10 12 16 11 12 = true ↔
      10 ≤ 11 ∧ 11 ≤ 10 + 12 ∧ 10 ≤ 12 ∧ 12 ≤ 10 + 16 :=
  c5_isInside_closed_interval.1 10 10 12 16 11 12 (by decide) (by decide)

/-- Claim C9: the wall query divides both pixel coordinates by the tile
size 8; inside the 16x20 grid it reports a collision exactly when the
mapped tile is a wall (value 1), and any mapped cell outside the grid —
in pixel terms x ≥ 128 or y ≥ 160 — reports a collision (fail-closed)
instead of an error. -/
theorem c9_isWallCollision_fail_closed :
    (∀ x y : Nat, x / 8 < 16 → y / 8 < 20 →
        (isWallCollision x y = true ↔ mazeAt (y / 8) (x / 8) = 1)) ∧
    (∀ x y : Nat, 16 ≤ x / 8 ∨ 20 ≤ y / 8 → isWallCollision x y = true) ∧
    (∀ x y : Nat, 128 ≤ x ∨ 160 ≤ y → isWallCollision x y = true) := by
  refine ⟨?_, ?_, ?_⟩
  · intro x y h1 h2
    simp only [isWallCollision]
    rw [if_pos ⟨h1, h2⟩]
    exact beq_iff_eq
  · intro x y h
    simp only [isWallCollision]
    split_ifs with hc
    · exfalso; omega
    · rfl
  · intro x y h
    simp only [isWallCollision]
    split_ifs with hc
    · exfalso; omega
    · rfl

/-- Claim C9 witness: an out-of-bounds pixel (x = 130 maps to column 16)
collides, and cell (1,1) of the maze decides the query at pixel (12,12). -/
theorem c9_isWallCollision_witness :
    isWallCollision 130 5 = true ∧
    (isWallCollision 12 12 = true ↔ mazeAt 1 1 = 1) :=
  ⟨c9_isWallCollision_fail_closed.2.2 130 5 (Or.inl (by decide)),
   c9_isWallCollision_fail_closed.1 12 12 (by decide) (by decide)⟩

/-- Claim C10: for a not-yet-eaten heart with x < 3, a drift step whose
rand() draw gives direction -1 first wraps the uint16 coordinate to at
least 65533 and the ≥ 115 boundary check then stores 115 (the far right),
not 0; symmetrically y < 3 with direction -1 maps y to 144. -/
theorem c10_drift_underflow :
    (∀ x y rx ry : Nat, x < 3 → rx % 3 = 0 →
        65533 ≤ driftMove x rx ∧ (heartStep 0 x y rx ry).1 = 115) ∧
    (∀ x y rx ry : Nat, y < 3 → ry % 3 = 0 →
        65533 ≤ driftMove y ry ∧ (heartStep 0 x y rx ry).2 = 144) := by
  constructor
  · intro x y rx ry hx hr
    have hm : 65533 ≤ driftMove x rx ∧ driftMove x rx ≤ 65535 := by
      simp only [driftMove, wrap16, hr]
      omega
    refine ⟨hm.1, ?_⟩
    rw [show (heartStep 0 x y rx ry).1 = driftClamp (driftMove x rx) 115 from rfl]
    simp only [driftClamp]
    split_ifs <;> omega
  · intro x y rx ry hy hr
    have hm : 65533 ≤ driftMove y ry ∧ driftMove y ry ≤ 65535 := by
      simp only [driftMove, wrap16, hr]
      omega
    refine ⟨hm.1, ?_⟩
    rw [show (heartStep 0 x y rx ry).2 = driftClamp (driftMove y ry) 144 from rfl]
    simp only [driftClamp]
    split_ifs <;> omega

/-- Claim C10 witness: heart at x = 0 drawing direction -1 on x lands on
115. -/
theorem c10_drift_underflow_witness :
    65533 ≤ driftMove 0 0 ∧ (heartStep 0 0 50 0 1).1 = 115 :=
  c10_drift_underflow.1 0 50 0 1 (by decide) (by decide)

/-- The counter advanced by n ticks from t1 reads (t1 + n) mod 2^32. -/
theorem msTick_iterate (n t1 : Nat) (h : t1 < 4294967296) :
    Nat.iterate msTick n t1 = (t1 + n) % 4294967296 := by
  induction n with
  | zero => simpa using (Nat.mod_eq_of_lt h).symm
  | succ n ih =>
      rw [Function.iterate_succ_apply', ih]
      simp only [msTick]
      omega

/-- Claim C6: a delay of duration d started at counter value t1 compares
the counter against end_time = (d + t1) mod 2^32; the comparison first
succeeds exactly d ticks later — at the tick where the counter reads
t1 + d (mod 2^32) and at no earlier tick — and for d = 0 the very first
check (made before any wait) already succeeds, so delay(0) returns
immediately. -/
theorem c6_delay_unblocks_exactly (t1 d : Nat)
    (h1 : t1 < 4294967296) (h2 : d < 4294967296) :
    delayDone t1 d (Nat.iterate msTick d t1) = true ∧
    ∀ n, n < d → delayDone t1 d (Nat.iterate msTick n t1) = false := by
  constructor
  · rw [msTick_iterate d t1 h1]
    simp [delayDone, delayEnd, Nat.add_comm]
  · intro n hn
    rw [msTick_iterate n t1 h1]
    simp only [delayDone, delayEnd, beq_eq_false_iff_ne, ne_eq]
    omega

/-- Claim C6 witness: a delay of 3 started at counter value 5 is done
after exactly 3 ticks. -/
theorem c6_delay_witness : delayDone 5 3 (Nat.iterate msTick 3 5) = true :=
  (c6_delay_unblocks_exactly 5 3 (by decide) (by decide)).1

/-- The boundary checks keep a coordinate at or below its bound. -/
theorem driftClamp_le (c b : Nat) : driftClamp c b ≤ b := by
  simp only [driftClamp]
  split_ifs <;> omega

/-- One guarded drift step keeps an in-bounds heart in bounds. -/
theorem heartStep_le (eaten x y rx ry : Nat) (hx : x ≤ 115) (hy : y ≤ 144) :
    (heartStep eaten x y rx ry).1 ≤ 115 ∧ (heartStep eaten x y rx ry).2 ≤ 144 := by
  simp only [heartStep]
  split_ifs with h
  · exact ⟨driftClamp_le _ _, driftClamp_le _ _⟩
  · exact ⟨hx, hy⟩

/-- Unfolding one step of an iterated heart drift. -/
theorem heartRun_cons (eaten x y : Nat) (r : Nat × Nat) (rs : List (Nat × Nat)) :
    heartRun eaten x y (r :: rs) =
      heartRun eaten (heartStep eaten x y r.1 r.2).1
        (heartStep eaten x y r.1 r.2).2 rs := rfl

/-- Claim C7: starting inside the playfield, a heart stays within
[0,115] x [0,144] after any number of drift steps (the lower bounds hold
because the coordinates are unsigned), and a heart whose eaten flag is
set is never moved by any subsequent drift step. -/
theorem c7_drift_invariant :
    (∀ (eaten x y : Nat) (rs : List (Nat × Nat)), x ≤ 115 → y ≤ 144 →
        (heartRun eaten x y rs).1 ≤ 115 ∧ (heartRun eaten x y rs).2 ≤ 144) ∧
    (∀ (eaten x y : Nat) (rs : List (Nat × Nat)), eaten ≠ 0 →
        heartRun eaten x y rs = (x, y)) := by
  constructor
  · intro eaten x y rs
    induction rs generalizing x y with
    | nil => intro hx hy; exact ⟨hx, hy⟩
    | cons r rs ih =>
        intro hx hy
        rw [heartRun_cons]
        have hs := heartStep_le eaten x y r.1 r.2 hx hy
        exact ih _ _ hs.1 hs.2
  · intro eaten x y rs h
    induction rs generalizing x y with
    | nil => rfl
    | cons r rs ih =>
        rw [heartRun_cons]
        have hstep : heartStep eaten x y r.1 r.2 = (x, y) := by
          simp only [heartStep]
          rw [if_neg h]
        rw [hstep]
        exact ih x y

/-- Claim C7 witness: a live heart started at (40,80) stays in bounds over
two concrete drift steps, and an eaten heart parked out of bounds at
(200,7) is left exactly where it is. -/
theorem c7_drift_invariant_witness :
    (heartRun 0 40 80 [(0, 1), (2, 5)]).1 ≤ 115 ∧
    heartRun 1 200 7 [(0, 0)] = (200, 7) :=
  ⟨(c7_drift_invariant.1 0 40 80 [(0, 1), (2, 5)] (by decide) (by decide)).1,
   c7_drift_invariant.2 1 200 7 [(0, 0)] (by decide)⟩

/-- An in-bounds coordinate moves by at most one unit per pass, weakly
toward the target and not at all when already on it, for the effective
speeds the game produces (0 or 1). -/
theorem axisStep_spec (c t speed bound : Nat)
    (hc : c ≤ bound) (hs : speed ≤ 1) (hb : bound ≤ 65534) :
    (axisStep c t speed bound ≤ c + 1 ∧ c ≤ axisStep c t speed bound + 1) ∧
    (c < t → c ≤ axisStep c t speed bound) ∧
    (t < c → axisStep c t speed bound ≤ c) ∧
    (c = t → axisStep c t speed bound = c) := by
  simp only [axisStep, add16, sub16]
  split_ifs <;> omega

/-- Claim C8: on an enemy-update pass an in-bounds active enemy with the
effective speeds the game produces (0 or 1) moves at most one unit per
axis, each axis monotonically toward the player and frozen when already
aligned; and concretely, with the player at (50,50), the level-1 update
pass moves the enemy from (10,10) with speed 1 to (11,11). -/
theorem c8_pursuit_step :
    (∀ (e : Enemy) (speed px py : Nat), e.x ≤ 115 → e.y ≤ 144 → speed ≤ 1 →
        ((moveEnemyStep e speed px py).x ≤ e.x + 1 ∧
         e.x ≤ (moveEnemyStep e speed px py).x + 1) ∧
        ((moveEnemyStep e speed px py).y ≤ e.y + 1 ∧
         e.y ≤ (moveEnemyStep e speed px py).y + 1) ∧
        (e.x < px → e.x ≤ (moveEnemyStep e speed px py).x) ∧
        (px < e.x → (moveEnemyStep e speed px py).x ≤ e.x) ∧
        (e.x = px → (moveEnemyStep e speed px py).x = e.x) ∧
        (e.y < py → e.y ≤ (moveEnemyStep e speed px py).y) ∧
        (py < e.y → (moveEnemyStep e speed px py).y ≤ e.y) ∧
        (e.y = py → (moveEnemyStep e speed px py).y = e.y)) ∧
    (moveEnemies gs0 50 50).enemies.getD 0 ⟨0, 0, false, 0⟩ =
      ⟨11, 11, true, 1⟩ := by
  constructor
  · intro e speed px py hx hy hs
    have hX := axisStep_spec e.x px speed 115 hx hs (by omega)
    have hY := axisStep_spec e.y py speed 144 hy hs (by omega)
    have ex : (moveEnemyStep e speed px py).x = axisStep e.x px speed 115 := rfl
    have ey : (moveEnemyStep e speed px py).y = axisStep e.y py speed 144 := rfl
    rw [ex, ey]
    exact ⟨hX.1, hY.1, hX.2.1, hX.2.2.1, hX.2.2.2, hY.2.1, hY.2.2.1, hY.2.2.2⟩
  · decide

/-- Claim C8 witness: the per-axis displacement bound applied to the
level-1 enemy (10,10) chasing the player at (50,50). -/
theorem c8_pursuit_step_witness :
    (moveEnemyStep ⟨10, 10, true, 1⟩ 1 50 50).x ≤ 10 + 1 :=
  ((c8_pursuit_step.1 ⟨10, 10, true, 1⟩ 1 50 50 (by decide) (by decide)
      (by decide)).1).1

/-- Claim C4: on level 1 the required count is exactly 2 and the win check
recomputes the collected total from the two eaten flags (ignoring any
stale counter value); with the flags summing to 1 the check leaves the
level, the win flag and the eaten flags alone, and with both flags set it
advances to level 2 with every level-1 eaten flag cleared to 0 (hearts 3
and 4 are cleared as well) and the game still not won. -/
theorem c4_win_condition :
    (∀ s : GameState, s.current_level = 1 → requiredHearts s = 2) ∧
    (∀ (s : GameState) (x y : Nat), s.current_level = 1 →
        ((checkWinCondition s x y).1).hearts_collected =
          s.heart1_eaten + s.heart2_eaten) ∧
    (∀ (s : GameState) (x y : Nat), s.current_level = 1 → s.game_won = false →
        s.heart1_eaten + s.heart2_eaten = 1 →
        ((checkWinCondition s x y).1).current_level = 1 ∧
        ((checkWinCondition s x y).1).game_won = false ∧
        ((checkWinCondition s x y).1).heart1_eaten = s.heart1_eaten ∧
        ((checkWinCondition s x y).1).heart2_eaten = s.heart2_eaten) ∧
    (∀ (s : GameState) (x y : Nat), s.current_level = 1 → s.game_won = false →
        s.heart1_eaten = 1 → s.heart2_eaten = 1 →
        ((checkWinCondition s x y).1).current_level = 2 ∧
        ((checkWinCondition s x y).1).heart1_eaten = 0 ∧
        ((checkWinCondition s x y).1).heart2_eaten = 0 ∧
        ((checkWinCondition s x y).1).heart3_eaten = 0 ∧
        ((checkWinCondition s x y).1).heart4_eaten = 0 ∧
        ((checkWinCondition s x y).1).game_won = false) := by
  refine ⟨?_, ?_, ?_, ?_⟩
  · intro s h1
    simp [requiredHearts, h1]
  · intro s x y h1
    simp only [checkWinCondition, collectedHearts, requiredHearts, initEnemies, h1]
    split_ifs <;> (try omega) <;> simp
  · intro s x y h1 h2 h3
    simp only [checkWinCondition, collectedHearts, requiredHearts, initEnemies,
               h1, h2]
    split_ifs <;> (try omega) <;> simp
  · intro s x y h1 h2 h3 h4
    simp only [checkWinCondition, collectedHearts, requiredHearts, initEnemies,
               h1, h2, h3, h4, and_true, true_and]
    split_ifs <;> first | omega | simp

/-- Claim C4 witness: the full transition evaluated on the concrete level-1
state with both hearts collected. -/
theorem c4_win_condition_witness :
    ((checkWinCondition c4State 0 0).1).current_level = 2 ∧
    ((checkWinCondition c4State 0 0).1).heart1_eaten = 0 ∧
    ((checkWinCondition c4State 0 0).1).heart2_eaten = 0 ∧
    ((checkWinCondition c4State 0 0).1).heart3_eaten = 0 ∧
    ((checkWinCondition c4State 0 0).1).heart4_eaten = 0 ∧
    ((checkWinCondition c4State 0 0).1).game_won = false :=
  c4_win_condition.2.2.2 c4State 0 0 rfl rfl rfl rfl

/-- Claim C1 is the stated intent, but the code drops the repositioning:
checkWinCondition writes the level-start coordinates (50,50) only into
its pass-by-value parameters (visible in the second component), so after
the level-1 to level-2 transition fires the position the game loop keeps
using is the old (70,80), not (50,50). -/
theorem c1_player_reposition_lost :
    (checkWinCondition c1State c1State.px c1State.py).2 = (50, 50) ∧
    (loopBody c1State inputsNone rands0).current_level = 2 ∧
    (loopBody c1State inputsNone rands0).px = 70 ∧
    (loopBody c1State inputsNone rands0).py = 80 := by decide

/-- Claim C2 fails as stated: here an active enemy box contains the player
in a Playing-state iteration, yet because the 400 ms heart timer has not
elapsed the iteration performs no enemy-collision check and ends with the
game still running. -/
theorem c2_collision_check_skipped :
    c2State.in_menu = false ∧ c2State.game_won = false ∧
    c2State.game_over = false ∧
    checkEnemyCollision c2State c2State.px c2State.py = true ∧
    (loopBody c2State inputsNone rands0).game_over = false ∧
    (loopBody c2State inputsNone rands0).in_menu = false ∧
    (loopBody c2State inputsNone rands0).game_won = false := by decide

/-- The drift phase touches only heart coordinates: the fields the
collision check reads are unchanged. -/
theorem heartDriftPhase_fields (s : GameState) (r : Rands) :
    (heartDriftPhase s r).enemies = s.enemies ∧
    (heartDriftPhase s r).px = s.px ∧
    (heartDriftPhase s r).py = s.py ∧
    (heartDriftPhase s r).game_won = s.game_won ∧
    (heartDriftPhase s r).game_over = s.game_over ∧
    (heartDriftPhase s r).milliseconds = s.milliseconds := by
  simp only [heartDriftPhase]
  split <;> simp

/-- Claim C2 (amended): enemy collision is checked only on iterations
where the 400 ms heart timer has elapsed (wraparound difference
milliseconds - heart_move_delay ≥ 400) and the game is not already over;
on such an iteration, whenever any active enemy box contains the player
position the block sets game over and deactivates every enemy before it
returns. -/
theorem c2_collision_on_timer_iteration (s : GameState) (r : Rands)
    (h1 : 400 ≤ usub32 s.milliseconds s.heart_move_delay)
    (h2 : s.game_over = false) (h3 : s.game_won = false)
    (h4 : checkEnemyCollision s s.px s.py = true) :
    (heartMoveBlock s r).game_over = true ∧
    ∀ e ∈ (heartMoveBlock s r).enemies, e.active = false := by
  obtain ⟨he, hpx, hpy, hw, _, _⟩ := heartDriftPhase_fields s r
  have hcol : (heartDriftPhase s r).game_won = false ∧
      checkEnemyCollision (heartDriftPhase s r) (heartDriftPhase s r).px
        (heartDriftPhase s r).py = true := by
    refine ⟨by rw [hw, h3], ?_⟩
    unfold checkEnemyCollision at h4 ⊢
    rw [he, hpx, hpy]
    exact h4
  unfold heartMoveBlock
  rw [if_pos ⟨h1, h2⟩]
  simp only
  rw [if_pos hcol]
  refine ⟨rfl, ?_⟩
  intro e hme
  simp only [List.mem_map] at hme
  obtain ⟨a, _, rfl⟩ := hme
  by_cases ha : a.active <;> simp [ha]

/-- Claim C2 witness: the amended guarantee evaluated on the concrete
overlap state with the 400 ms timer elapsed. -/
theorem c2_collision_on_timer_witness :
    (heartMoveBlock c2wState rands0).game_over = true :=
  (c2_collision_on_timer_iteration c2wState rands0 (by decide) (by decide)
    (by decide) (by decide)).1

/-- Claim C3 fails as stated: with repeat on and the last note expired the
tick wraps the index to 0 but requests no tone and loads no duration (the
load/request branch is skipped on the wrap tick), and the following tick
advances past note 0 and requests note 1 instead — the tone of note 0 is
never requested on a restart. -/
theorem c3_wrap_skips_note0 :
    (tuneTick c3State).2 = none ∧
    (tuneTick c3State).1.index = 0 ∧
    (tuneTick c3State).1.timer = 0 ∧
    (tuneTick c3State).1.active = true ∧
    (tuneTick (tuneTick c3State).1).2 = some 200 ∧
    (tuneTick (tuneTick c3State).1).1.index = 1 := by decide

/-- Claim C3 (amended): for an active tune whose current note has expired,
advancing by increment to an index still below the sequence length loads
that note duration into the remaining-ticks counter (the same tick then
applies the ordinary decrement) and requests that note tone; with repeat
on, once the increment reaches the sequence length the index wraps to 0
with no tone request on that tick, so the restart requests note 1 on the
following tick and the tone of note 0 is skipped. -/
theorem c3_sequencer_step (s : TuneState) :
    (s.active = true → s.timer = 0 → s.index + 1 < s.count →
        tuneTick s = ({ s with index := s.index + 1,
                               timer := s.ttimes.getD (s.index + 1) 0 - 1 },
                      some (s.tnotes.getD (s.index + 1) 0))) ∧
    (s.active = true → s.timer = 0 → s.count ≤ s.index + 1 →
        s.repeatFlag ≠ 0 → tuneTick s = ({ s with index := 0 }, none)) ∧
    (s.active = true → s.timer = 0 → s.index = 0 → 1 < s.count →
        (tuneTick s).2 = some (s.tnotes.getD 1 0)) := by
  refine ⟨?_, ?_, ?_⟩
  · intro h1 h2 h3
    have hle : ¬ s.count ≤ s.index + 1 := by omega
    simp only [tuneTick, h1, h2, hle, if_true, if_false]
    split_ifs <;> simp_all
  · intro h1 h2 h3 h4
    simp only [tuneTick, h1, h2, h3, h4]
    split_ifs <;> simp_all
  · intro h1 h2 h3 h4
    have hle : ¬ s.count ≤ s.index + 1 := by omega
    simp only [tuneTick, h1, h2, h3, hle, if_true, if_false]
    split_ifs <;> simp_all

/-- Claim C3 witness: the increment step applied to a concrete active
three-note tune sitting at index 0 with an expired timer. -/
theorem c3_sequencer_step_witness :
    tuneTick ⟨true, [9, 8, 7], [4, 5, 6], 3, 0, 0, 1⟩ =
      (⟨true, [9, 8, 7], [4, 5, 6], 3, 1, 4, 1⟩, some 8) := by
  have h := (c3_sequencer_step ⟨true, [9, 8, 7], [4, 5, 6], 3, 0, 0, 1⟩).1
    rfl rfl (by decide)
  simpa using h
